import Mathlib

/-!
Shallow embedding of the SAD-Tree-Analysis-Service analysis pipeline and job
dispatcher, and proofs settling the spec claims against it.

Embedded source:
  * `src/app/services/yolo_analyzer.py` — `YOLOTreeAnalyzer._process_photo`,
    `_analyze_defects`, `_translate_species`, `_translate_defect`.
  * `src/app/services/ml_tree_analyzer.py` — `MLTreeAnalyzer._analyze_with_yolo`,
    `_calculate_health_score` (the mock scoring helper), and the constant
    tables of `src/app/config/ml_config.py` it reads.
  * `src/app/services/image_processor.py` — the Celery task `process_image`
    (status commits, error handling, `self.retry`).

Modelling conventions: Python floats are embedded as exact rationals (ℚ);
`random.uniform(0.9, 1.1)` becomes an explicit `jitter` parameter; the
external model calls (segmentation, defect detection) and filesystem facts
are inputs of the dispatch environment, since they are outside the
repository; exceptions become `Except` values. Interpolated parts of error
message strings are abridged to constants, which no claim depends on.
-/

namespace SADTree

/-- `TaskStatus` from `src/app/models/task.py`. -/
inductive TaskStatus
  | pending
  | processing
  | completed
  | failed
deriving DecidableEq

/-- `TreeType` from `src/app/models/task.py`. -/
inductive TreeType
  | oak
  | pine
  | birch
  | maple
  | cherry
  | unknown
deriving DecidableEq

/-- One entry of `damages_detected` as built by
`MLTreeAnalyzer._analyze_with_yolo` (a Finding of the public result). -/
structure Damage where
  type : String
  confidence : ℚ
  severity : String
  description : String
  recommendations : List String
deriving DecidableEq

/-- One tree dict built by `YOLOTreeAnalyzer._process_photo`:
`species` is the "вид" field, `conf` the rounded
"достоверность_предсказания", `defects` the "повреждения" list.
The bounding-box fields are carried by no claim and are omitted. -/
structure Tree where
  species : String
  conf : ℚ
  defects : List String
deriving DecidableEq

/-- The photo dict returned by `_process_photo` (its "trees" list). -/
structure YoloResult where
  trees : List Tree
deriving DecidableEq

/-- The legacy-format result dict returned by
`MLTreeAnalyzer._analyze_with_yolo` (the four fields the dispatcher
commits to the Task row). -/
structure MLResults where
  tree_type : TreeType
  tree_type_confidence : ℚ
  damages_detected : List Damage
  overall_health_score : ℚ
deriving DecidableEq

/-- One detection of the segmentation model: its class label and rounded
confidence, in the model's output order (external input of `_process_photo`). -/
structure Instance where
  label : String
  conf : ℚ
deriving DecidableEq

/-- Binary maximum on ℚ, written out so it evaluates in the kernel; agrees
with `max` (see `qmax_eq_max`). -/
def qmax (a b : ℚ) : ℚ := if a ≤ b then b else a

/-- Binary minimum on ℚ, written out so it evaluates in the kernel; agrees
with `min` (see `qmin_eq_min`). -/
def qmin (a b : ℚ) : ℚ := if a ≤ b then a else b

/-- ASCII lowercase of a string (Python `str.lower()`; the dict keys it is
compared against in the source are ASCII). -/
def asciiLower (s : String) : String := ⟨s.data.map Char.toLower⟩

/-- Char-list `l` begins with char-list `n`. -/
def leadsWith : List Char → List Char → Bool
  | [], _ => true
  | _ :: _, [] => false
  | a :: as, b :: bs => a == b && leadsWith as bs

/-- Char-list `h` has `n` as a contiguous sub-list (Python `in` on strings). -/
def hasSub (n : List Char) : List Char → Bool
  | [] => leadsWith n []
  | b :: t => leadsWith n (b :: t) || hasSub n t

/-- Python `needle in hay` for strings. -/
def containsSub (needle hay : String) : Bool :=
  hasSub needle.data hay.data

/-- `YOLOTreeAnalyzer._translate_species`: the species_mapping dict lookup
with the original string as default. -/
def translate_species (species : String) : String :=
  let l := asciiLower species
  if l = "tree" then "Дерево (неопределенный вид)"
  else if l = "oak" then "Quercus robur"
  else if l = "pine" then "Pinus sylvestris"
  else if l = "birch" then "Betula pendula"
  else if l = "maple" then "Acer platanoides"
  else species

/-- `YOLOTreeAnalyzer._translate_defect`: the defect_mapping dict lookup
with the original string as default. -/
def translate_defect (defect : String) : String :=
  let l := asciiLower defect
  if l = "crack" then "трещина"
  else if l = "hole" then "дупло"
  else if l = "bark_damage" then "повреждение коры"
  else if l = "dead_branch" then "сухая ветка"
  else if l = "insect_damage" then "повреждение насекомыми"
  else defect

/-- `YOLOTreeAnalyzer._analyze_defects`: the defect-model call for one
instance, whose outcome (list of detected labels, or an exception) is the
argument. On success each label is translated; on any exception the
function logs a warning and returns the initial empty list. -/
def analyze_defects : Except String (List String) → List String
  | Except.ok labels => labels.map translate_defect
  | Except.error _ => []

/-- The per-instance body of the loop in `YOLOTreeAnalyzer._process_photo`:
builds one tree dict from a detection and its defect-call outcome. -/
def instToTree (p : Instance × Except String (List String)) : Tree :=
  { species := translate_species p.1.label
    conf := p.1.conf
    defects := analyze_defects p.2 }

/-- `YOLOTreeAnalyzer._process_photo`: one tree dict per detection, in the
segmentation model's output order. -/
def process_photo (dets : List (Instance × Except String (List String))) : YoloResult :=
  { trees := dets.map instToTree }

/-- The species_mapping of `MLTreeAnalyzer._analyze_with_yolo`, in dict
insertion order; the loop takes the first key that is a substring of the
tree's "вид" and falls through to UNKNOWN. -/
def speciesToEnum : List (String × TreeType) :=
  [("Quercus robur", TreeType.oak),
   ("Pinus sylvestris", TreeType.pine),
   ("Betula pendula", TreeType.birch),
   ("Acer platanoides", TreeType.maple)]

/-- The species-to-enum loop of `MLTreeAnalyzer._analyze_with_yolo`. -/
def mapSpecies (vid : String) : TreeType :=
  match speciesToEnum.find? (fun p => containsSub p.1 vid) with
  | some p => p.2
  | none => TreeType.unknown

/-- The defect-to-legacy-damage conversion inside
`MLTreeAnalyzer._analyze_with_yolo`: every damage gets the constant type,
confidence, severity and recommendations; the defect string becomes the
description. -/
def defectToDamage (defect : String) : Damage :=
  { type := "bark_damage"
    confidence := 8/10
    severity := "medium"
    description := defect
    recommendations := ["Обратиться к специалисту"] }

/-- `MLTreeAnalyzer._analyze_with_yolo`: converts the YOLO photo dict to the
legacy result. With at least one tree, it uses the first tree of the list,
and `health_score = max(0.3, 1.0 - len(damages) * 0.2)`; with no trees it
returns the UNKNOWN/0.0/[]/0.5 default. -/
def analyze_with_yolo (y : YoloResult) : MLResults :=
  match y.trees with
  | [] =>
    { tree_type := TreeType.unknown
      tree_type_confidence := 0
      damages_detected := []
      overall_health_score := 1/2 }
  | first_tree :: _ =>
    let damages := first_tree.defects.map defectToDamage
    { tree_type := mapSpecies first_tree.species
      tree_type_confidence := first_tree.conf
      damages_detected := damages
      overall_health_score := qmax (3/10) (1 - (damages.length : ℚ) * (2/10)) }

/-- `MLConfig.HEALTH_SCORE_MODIFIERS.get(severity, 1.0)` from
`src/app/config/ml_config.py`. -/
def severityModifier (severity : String) : ℚ :=
  if severity = "low" then 95/100
  else if severity = "medium" then 85/100
  else if severity = "high" then 70/100
  else 1

/-- `max(0.0, min(1.0, x))`. -/
def clamp01 (x : ℚ) : ℚ := qmax 0 (qmin 1 x)

/-- `MLTreeAnalyzer._calculate_health_score`, the mock scoring helper:
starts from the tree confidence, multiplies in the severity modifier of
each damage, multiplies by the random factor `uniform(0.9, 1.1)` (here the
explicit `jitter`), and clamps into [0, 1]. -/
def calculate_health_score (damages : List Damage) (tree_confidence jitter : ℚ) : ℚ :=
  clamp01 ((damages.foldl (fun acc d => acc * severityModifier d.severity) tree_confidence) * jitter)

/-- Product of the severity modifiers of a damage list (the `Π` of the spec
formula). -/
def prodModifiers (damages : List Damage) : ℚ :=
  (damages.map (fun d => severityModifier d.severity)).prod

instance {ε α : Type} [DecidableEq ε] [DecidableEq α] : DecidableEq (Except ε α) := fun a b =>
  match a, b with
  | Except.ok x, Except.ok y =>
    if h : x = y then isTrue (by rw [h]) else isFalse (fun hc => by cases hc; exact h rfl)
  | Except.error x, Except.error y =>
    if h : x = y then isTrue (by rw [h]) else isFalse (fun hc => by cases hc; exact h rfl)
  | Except.ok _, Except.error _ => isFalse (fun hc => by cases hc)
  | Except.error _, Except.ok _ => isFalse (fun hc => by cases hc)

/-- Environment of one run of the Celery task `process_image`
(`src/app/services/image_processor.py`): the facts it observes that are
external to the repository. `segmentation` is the outcome of
`analyze_tree_image` seen as the segmentation model's detections paired
with each detection's defect-call outcome (`Except.error` when the chain
raised before producing detections). -/
structure Env where
  taskFound : Bool
  fileExists : Bool
  decodeOk : Bool
  origSize : Nat
  procSize : Nat
  origDims : Nat × Nat
  procDims : Nat × Nat
  segmentation : Except String (List (Instance × Except String (List String)))
deriving DecidableEq

/-- The `task_metadata` JSON committed by `process_image`: the error payload
`{"error": str(e)}` on the failure path, or the full metadata dict (sizes,
dimensions, ml results) on the success path. -/
inductive Meta
  | errorPayload (msg : String)
  | fullMeta (original_size processed_size : Nat)
      (original_dims processed_dims : Nat × Nat) (ml : MLResults)
deriving DecidableEq

/-- How one run of `process_image` ends: normal return; `self.retry` raised
(the task is re-enqueued while attempts remain); or the except handler
itself crashed dereferencing the missing Task record, so `self.retry` was
never reached. -/
inductive Outcome
  | completed
  | retryRaised
  | crashedNoRetry
deriving DecidableEq

/-- Observable effect of one run of `process_image` on the Task Store:
the statuses committed in order, the last committed `task_metadata`, and
how the run ended. -/
structure DispatchTrace where
  commits : List TaskStatus
  finalMeta : Option Meta
  outcome : Outcome
deriving DecidableEq

/-- One run of the Celery task `process_image(task_id)`.

Paths, following the source:
  * Task row not found: the `raise` is caught, but `task` is bound to
    `None`, so `task.status = FAILED` in the handler raises
    `AttributeError`; nothing is committed and `self.retry` never runs.
  * Source file missing, bytes undecodable, or the analysis chain raising:
    the handler commits `status = FAILED` together with the error payload,
    then `raise self.retry(exc=e, countdown=60, max_retries=3)` re-enqueues
    the task.
  * Success: `PROCESSING` is committed first, then one commit sets
    `COMPLETED`, the four ml-result fields and the full metadata. -/
def dispatch (env : Env) : DispatchTrace :=
  if env.taskFound then
    if env.fileExists then
      if env.decodeOk then
        match env.segmentation with
        | Except.error e =>
          { commits := [TaskStatus.processing, TaskStatus.failed]
            finalMeta := some (Meta.errorPayload e)
            outcome := Outcome.retryRaised }
        | Except.ok dets =>
          let ml := analyze_with_yolo (process_photo dets)
          { commits := [TaskStatus.processing, TaskStatus.completed]
            finalMeta := some (Meta.fullMeta env.origSize env.procSize
              env.origDims env.procDims ml)
            outcome := Outcome.completed }
      else
        { commits := [TaskStatus.processing, TaskStatus.failed]
          finalMeta := some (Meta.errorPayload "cannot identify image file")
          outcome := Outcome.retryRaised }
    else
      { commits := [TaskStatus.processing, TaskStatus.failed]
        finalMeta := some (Meta.errorPayload "Original file not found")
        outcome := Outcome.retryRaised }
  else
    { commits := [], finalMeta := none, outcome := Outcome.crashedNoRetry }

/-- The Celery retry loop around `process_image`: each attempt runs in the
environment at the head of the list; a run that raised `self.retry` is
re-run while retries remain (`max_retries=3` gives fuel 3 after the first
attempt). Returns the statuses committed to the Task Store, in order. -/
def runAttempts : List Env → Nat → List TaskStatus
  | [], _ => []
  | env :: rest, fuel =>
    let t := dispatch env
    match t.outcome, fuel with
    | Outcome.retryRaised, Nat.succ f => t.commits ++ runAttempts rest f
    | _, _ => t.commits

/-- The order `PENDING < PROCESSING < {COMPLETED, FAILED}` of the spec. -/
def statusRank : TaskStatus → Nat
  | TaskStatus.pending => 0
  | TaskStatus.processing => 1
  | TaskStatus.completed => 2
  | TaskStatus.failed => 2

/-- The committed `overall_health_score`, when the run committed one. -/
def committedScore (t : DispatchTrace) : Option ℚ :=
  match t.finalMeta with
  | some (Meta.fullMeta _ _ _ _ ml) => some ml.overall_health_score
  | _ => none

/-- Whether the committed `task_metadata` carries the processed-image
size/dimension fields. -/
def hasImageMeta (t : DispatchTrace) : Bool :=
  match t.finalMeta with
  | some (Meta.fullMeta _ _ _ _ _) => true
  | _ => false

/-- A detection list with one tree of confidence 0.8 and one detected
defect. -/
def okDets : List (Instance × Except String (List String)) :=
  [({ label := "oak", conf := 8/10 }, Except.ok ["crack"])]

/-- Environment of a run where everything succeeds. -/
def envOk : Env :=
  { taskFound := true, fileExists := true, decodeOk := true
    origSize := 1000, procSize := 500
    origDims := (1600, 1200), procDims := (800, 600)
    segmentation := Except.ok okDets }

/-- Same task but the source file is missing. -/
def envMissingFile : Env := { envOk with fileExists := false }

/-- Same task but the Task row is absent from the database. -/
def envNoTask : Env := { envOk with taskFound := false }

/-- Same task but the analysis chain raises (e.g. a transient segmentation
failure). -/
def envAnalysisFail : Env :=
  { envOk with segmentation := Except.error "Segmentation failed: backend unavailable" }

/-- Same task but segmentation returns zero instances. -/
def envZeroInstances : Env := { envOk with segmentation := Except.ok [] }

/-- Same task but the defect-model call for the (single) detected instance
raises. -/
def envDefectError : Env :=
  { envOk with segmentation :=
      Except.ok [({ label := "oak", conf := 8/10 }, Except.error "defect model crashed")] }

/-- A YOLO photo dict with one tree of confidence 0.8 carrying one defect. -/
def yoloOneDefect : YoloResult :=
  { trees := [{ species := "Quercus robur", conf := 8/10, defects := ["трещина"] }] }

/-- A YOLO photo dict with one tree of confidence 0.8 and no defects. -/
def yoloNoDefects : YoloResult :=
  { trees := [{ species := "Quercus robur", conf := 8/10, defects := [] }] }

/-- Two detections in segmentation output order: the first with confidence
0.5, the second with confidence 0.9. -/
def twoDets : List (Instance × Except String (List String)) :=
  [({ label := "oak", conf := 1/2 }, Except.ok []),
   ({ label := "pine", conf := 9/10 }, Except.ok [])]

/-- A Finding with severity "high" (spec Scenario A input for the scoring
helper). -/
def highDamage : Damage :=
  { type := "bark_damage"
    confidence := 9/10
    severity := "high"
    description := "deep trunk crack"
    recommendations := [] }

/-- The status sequence is non-decreasing under
`PENDING < PROCESSING < {COMPLETED, FAILED}` (`statusRank`). -/
def nonDecreasing : List TaskStatus → Bool
  | [] => true
  | [_] => true
  | a :: b :: t => decide (statusRank a ≤ statusRank b) && nonDecreasing (b :: t)

/-! ## Helper lemmas -/

theorem qmax_eq_max (a b : ℚ) : qmax a b = max a b := by
  rw [qmax, max_def]

theorem qmin_eq_min (a b : ℚ) : qmin a b = min a b := by
  rw [qmin, min_def]

theorem severityModifier_low : severityModifier "low" = 95/100 := rfl

theorem severityModifier_medium : severityModifier "medium" = 85/100 := rfl

theorem severityModifier_high : severityModifier "high" = 70/100 := rfl

theorem foldl_mul_modifier (ds : List Damage) (c : ℚ) :
    ds.foldl (fun acc d => acc * severityModifier d.severity) c = c * prodModifiers ds := by
  induction ds generalizing c with
  | nil => simp [prodModifiers]
  | cons d t ih =>
    simp only [List.foldl_cons, ih, prodModifiers, List.map_cons, List.prod_cons]
    ring

theorem dispatch_commits_cases (env : Env) :
    (dispatch env).commits = []
    ∨ (dispatch env).commits = [TaskStatus.processing, TaskStatus.failed]
    ∨ (dispatch env).commits = [TaskStatus.processing, TaskStatus.completed] := by
  unfold dispatch
  by_cases h1 : env.taskFound <;> by_cases h2 : env.fileExists <;> by_cases h3 : env.decodeOk <;>
    cases hseg : env.segmentation <;> simp [h1, h2, h3, hseg]

theorem pending_notin_dispatch (env : Env) :
    TaskStatus.pending ∉ (dispatch env).commits := by
  rcases dispatch_commits_cases env with h | h | h <;> rw [h] <;> simp

theorem pending_notin_runAttempts (envs : List Env) (fuel : Nat) :
    TaskStatus.pending ∉ runAttempts envs fuel := by
  induction envs generalizing fuel with
  | nil => simp [runAttempts]
  | cons env rest ih =>
    cases fuel with
    | zero =>
      cases ho : (dispatch env).outcome <;>
        simp [runAttempts, ho, pending_notin_dispatch env]
    | succ f =>
      cases ho : (dispatch env).outcome <;>
        simp [runAttempts, ho, pending_notin_dispatch env, ih]

/-! ## Claims -/

/-- C1: the claim says the committed status sequence of a task is
non-decreasing under `PENDING < PROCESSING < {COMPLETED, FAILED}`, never
re-entering a non-terminal status after a terminal one, and that a
retryable error with attempts remaining moves the task `PROCESSING →
PENDING`. On the code this is false: on any error the run commits `FAILED`
and then re-raises via `self.retry`, so the next attempt commits
`PROCESSING` again right after `FAILED`. This concrete two-attempt
lifecycle (a transient analysis failure, then success) commits
`[PROCESSING, FAILED, PROCESSING, COMPLETED]`, which is not non-decreasing
and never passes through `PENDING`. -/
theorem C1_counterexample :
    runAttempts [envAnalysisFail, envOk] 3
      = [TaskStatus.processing, TaskStatus.failed,
         TaskStatus.processing, TaskStatus.completed]
    ∧ nonDecreasing (runAttempts [envAnalysisFail, envOk] 3) = false
    ∧ TaskStatus.pending ∉ runAttempts [envAnalysisFail, envOk] 3 := by
  refine ⟨?_, ?_, ?_⟩ <;> decide

/-- C1 (amended): each run of the dispatcher commits either nothing, or
`PROCESSING` followed by one terminal status; the dispatcher never commits
`PENDING`, so a retryable error with attempts remaining moves the task to
`FAILED` (and the retry re-runs it from `PROCESSING`), never back to
`PENDING`. -/
theorem C1_commit_shape (envs : List Env) (fuel : Nat) (env : Env) :
    TaskStatus.pending ∉ runAttempts envs fuel
    ∧ ((dispatch env).commits = []
        ∨ (dispatch env).commits = [TaskStatus.processing, TaskStatus.failed]
        ∨ (dispatch env).commits = [TaskStatus.processing, TaskStatus.completed]) :=
  ⟨pending_notin_runAttempts envs fuel, dispatch_commits_cases env⟩

/-- C2: the claim says a missing Task record or a missing/undecodable
source image sends the task directly to `FAILED` with zero retries. On the
code this is false twice over: a missing source file is committed `FAILED`
but then re-enqueued through the same `self.retry(..., max_retries=3)`
call as every other error; and a missing Task record commits nothing at
all (the except handler dereferences the `None` record and crashes before
reaching the commit or the retry). -/
theorem C2_counterexample :
    (dispatch envMissingFile).outcome = Outcome.retryRaised
    ∧ (dispatch envMissingFile).commits = [TaskStatus.processing, TaskStatus.failed]
    ∧ dispatch envNoTask
        = { commits := [], finalMeta := none, outcome := Outcome.crashedNoRetry } := by
  refine ⟨?_, ?_, ?_⟩ <;> decide

/-- C2 (amended): a missing Task record makes the error handler itself
crash on the unloaded record — nothing is committed and no retry is
scheduled; a missing source file or undecodable image bytes are committed
`FAILED` but then re-enqueued via the uniform `self.retry` path (bounded by
`max_retries=3`), exactly like transient errors. -/
theorem C2_fatal_inputs (env : Env) :
    (env.taskFound = false →
        dispatch env = { commits := [], finalMeta := none, outcome := Outcome.crashedNoRetry })
    ∧ (env.taskFound = true → env.fileExists = false →
        (dispatch env).commits = [TaskStatus.processing, TaskStatus.failed]
        ∧ (dispatch env).outcome = Outcome.retryRaised)
    ∧ (env.taskFound = true → env.fileExists = true → env.decodeOk = false →
        (dispatch env).commits = [TaskStatus.processing, TaskStatus.failed]
        ∧ (dispatch env).outcome = Outcome.retryRaised) := by
  refine ⟨fun h1 => ?_, fun h1 h2 => ?_, fun h1 h2 h3 => ?_⟩ <;>
    simp [dispatch, *]

/-- C2 witness: the amended statement evaluated on the concrete
missing-record and missing-file environments. -/
theorem C2_fatal_inputs_witness :
    dispatch envNoTask
      = { commits := [], finalMeta := none, outcome := Outcome.crashedNoRetry }
    ∧ (dispatch envMissingFile).commits = [TaskStatus.processing, TaskStatus.failed]
    ∧ (dispatch envMissingFile).outcome = Outcome.retryRaised :=
  ⟨(C2_fatal_inputs envNoTask).1 rfl,
   ((C2_fatal_inputs envMissingFile).2.1 rfl rfl).1,
   ((C2_fatal_inputs envMissingFile).2.1 rfl rfl).2⟩

/-- C3: the claim says every committed health score equals
`clamp01(primary_confidence × Π severity_modifier × jitter)`. On the code
this is false: the committed score comes from `_analyze_with_yolo`, which
computes `max(0.3, 1.0 - len(damages) * 0.2)`. Concretely, for a result
with primary confidence 0.8 and one finding (severity "medium", the only
severity that path produces), the committed score is 0.8 while the claimed
formula (at jitter 1.0) gives `clamp01(0.8 × 0.85 × 1) = 0.68`. -/
theorem C3_counterexample :
    (analyze_with_yolo yoloOneDefect).overall_health_score
      ≠ clamp01 ((analyze_with_yolo yoloOneDefect).tree_type_confidence
          * prodModifiers (analyze_with_yolo yoloOneDefect).damages_detected * 1) := by
  norm_num [analyze_with_yolo, yoloOneDefect, clamp01, prodModifiers, severityModifier_medium,
    defectToDamage, qmax, qmin]

/-- C3 (amended): the committed health score (the YOLO path) is
`max(0.3, 1 − 0.2·#findings)`, independent of the primary confidence and
of the finding severities; the formula of the claim, with severity
modifiers low=0.95, medium=0.85, high=0.70, is implemented only by the
mock scoring helper `_calculate_health_score`, which the committed path
never calls — on that helper, primary confidence 0.80, one finding of
severity high and jitter 1.0 indeed yield 0.56. -/
theorem C3_health_formula (t : Tree) (rest : List Tree) (damages : List Damage)
    (conf jitter : ℚ) :
    (analyze_with_yolo { trees := t :: rest }).overall_health_score
        = max (3/10) (1 - (t.defects.length : ℚ) * (2/10))
    ∧ calculate_health_score damages conf jitter
        = clamp01 (conf * prodModifiers damages * jitter)
    ∧ calculate_health_score [highDamage] (8/10) 1 = 14/25 := by
  refine ⟨?_, ?_, ?_⟩
  · simp [analyze_with_yolo, qmax_eq_max]
  · rw [calculate_health_score, foldl_mul_modifier]
  · norm_num [calculate_health_score, clamp01, severityModifier_high, highDamage, qmax, qmin]

/-- C4: for every run that commits a health score, the committed score lies
in [0, 1] (whatever the findings count or severity mix). -/
theorem C4_score_bounds (env : Env) (s : ℚ)
    (h : committedScore (dispatch env) = some s) :
    0 ≤ s ∧ s ≤ 1 := by
  have hb : ∀ y : YoloResult, 0 ≤ (analyze_with_yolo y).overall_health_score
      ∧ (analyze_with_yolo y).overall_health_score ≤ 1 := by
    intro y
    rcases y with ⟨trees⟩
    cases trees with
    | nil => norm_num [analyze_with_yolo]
    | cons t rest =>
      simp only [analyze_with_yolo, qmax_eq_max]
      constructor
      · exact le_max_of_le_left (by norm_num)
      · refine max_le (by norm_num) ?_
        have hn : (0:ℚ) ≤ ((t.defects.map defectToDamage).length : ℚ) * (2/10) := by
          positivity
        linarith
  unfold dispatch at h
  split at h
  · split at h
    · split at h
      · split at h
        · simp [committedScore] at h
        · simp only [committedScore] at h
          injection h with h
          subst h
          exact hb _
      · simp [committedScore] at h
    · simp [committedScore] at h
  · simp [committedScore] at h

/-- C4 witness: the bound evaluated on the concrete successful run, whose
committed score is 0.8. -/
theorem C4_score_bounds_witness : 0 ≤ (8/10 : ℚ) ∧ (8/10 : ℚ) ≤ 1 :=
  C4_score_bounds envOk (8/10) (by
    norm_num [committedScore, dispatch, envOk, okDets, analyze_with_yolo, process_photo,
      instToTree, analyze_defects, translate_defect, asciiLower, mapSpecies, speciesToEnum,
      containsSub, hasSub, leadsWith, translate_species, defectToDamage, qmax, List.find?])

/-- C5: zero segmentation instances is not an error: the run completes, the
findings list is empty, the primary label is the taxonomy's "unknown"
value, and the health score is the 0.5 default baseline. -/
theorem C5_zero_instances (env : Env) (h1 : env.taskFound = true)
    (h2 : env.fileExists = true) (h3 : env.decodeOk = true)
    (h4 : env.segmentation = Except.ok []) :
    (dispatch env).outcome = Outcome.completed
    ∧ committedScore (dispatch env) = some (1/2)
    ∧ (analyze_with_yolo (process_photo [])).damages_detected = []
    ∧ (analyze_with_yolo (process_photo [])).tree_type = TreeType.unknown
    ∧ (analyze_with_yolo (process_photo [])).overall_health_score = 1/2 := by
  refine ⟨?_, ?_, ?_, ?_, ?_⟩ <;>
    simp [dispatch, h1, h2, h3, h4, committedScore, analyze_with_yolo, process_photo]

/-- C5 witness: the statement evaluated on the concrete zero-instance
environment. -/
theorem C5_zero_instances_witness :
    (dispatch envZeroInstances).outcome = Outcome.completed
    ∧ committedScore (dispatch envZeroInstances) = some (1/2)
    ∧ (analyze_with_yolo (process_photo [])).damages_detected = []
    ∧ (analyze_with_yolo (process_photo [])).tree_type = TreeType.unknown
    ∧ (analyze_with_yolo (process_photo [])).overall_health_score = 1/2 :=
  C5_zero_instances envZeroInstances rfl rfl rfl rfl

/-- C6: the claim says that with at least one instance and an empty
findings list the health score equals the primary confidence (at jitter
1.0). On the committed path this is false: with one tree of confidence 0.8
and no defects the committed score is `max(0.3, 1 − 0) = 1.0`, not 0.8. -/
theorem C6_counterexample :
    (analyze_with_yolo yoloNoDefects).damages_detected = []
    ∧ (analyze_with_yolo yoloNoDefects).tree_type_confidence = 8/10
    ∧ (analyze_with_yolo yoloNoDefects).overall_health_score = 1
    ∧ (analyze_with_yolo yoloNoDefects).overall_health_score
        ≠ (analyze_with_yolo yoloNoDefects).tree_type_confidence := by
  refine ⟨?_, ?_, ?_, ?_⟩ <;>
    norm_num [analyze_with_yolo, yoloNoDefects, qmax]

/-- C6 (amended): with at least one detected instance and zero findings the
committed health score is the constant 1.0, whatever the primary
confidence; the equality to the primary confidence holds only of the mock
scoring helper `_calculate_health_score` (at jitter 1.0, for a confidence
in [0, 1]), which the committed path never calls. -/
theorem C6_zero_findings (t : Tree) (rest : List Tree) (conf : ℚ)
    (hdef : t.defects = []) (h0 : 0 ≤ conf) (h1 : conf ≤ 1) :
    (analyze_with_yolo { trees := t :: rest }).overall_health_score = 1
    ∧ calculate_health_score [] conf 1 = conf := by
  constructor
  · simp [analyze_with_yolo, hdef, qmax_eq_max]
    norm_num
  · have hc : calculate_health_score [] conf 1 = clamp01 conf := by
      simp [calculate_health_score]
    rw [hc, clamp01, qmin_eq_min, qmax_eq_max, min_eq_right h1, max_eq_right h0]

/-- C6 witness: the amended statement evaluated at a tree of confidence 0.5
with no defects. -/
theorem C6_zero_findings_witness :
    (analyze_with_yolo { trees := [{ species := "x", conf := 1/2, defects := [] }] }).overall_health_score = 1
    ∧ calculate_health_score [] (1/2) 1 = 1/2 :=
  C6_zero_findings { species := "x", conf := 1/2, defects := [] } [] (1/2)
    rfl (by norm_num) (by norm_num)

/-- C7: the claim says the primary subject is the highest-confidence
instance (ties broken by first-detected order). On the code this is false:
`_analyze_with_yolo` takes `trees[0]`, the first instance in the
segmentation model's output order. With two detections of confidences 0.5
then 0.9, the primary confidence committed is 0.5 although an instance of
confidence 0.9 was detected. -/
theorem C7_counterexample :
    (analyze_with_yolo (process_photo twoDets)).tree_type_confidence = 1/2
    ∧ ∃ t ∈ (process_photo twoDets).trees,
        (analyze_with_yolo (process_photo twoDets)).tree_type_confidence < t.conf := by
  constructor
  · norm_num [analyze_with_yolo, process_photo, twoDets, instToTree]
  · refine ⟨instToTree ({ label := "pine", conf := 9/10 }, Except.ok []), ?_, ?_⟩
    · simp [process_photo, twoDets]
    · norm_num [analyze_with_yolo, process_photo, twoDets, instToTree]

/-- C7 (amended): the primary subject is the first instance of the
segmentation output sequence, whatever its confidence; this coincides with
highest-confidence selection (ties to the first) exactly when the backend
emits instances in non-increasing confidence order. -/
theorem C7_first_instance (p : Instance × Except String (List String))
    (rest : List (Instance × Except String (List String)))
    (h : ∀ q ∈ rest, q.1.conf ≤ p.1.conf) :
    (analyze_with_yolo (process_photo (p :: rest))).tree_type_confidence = p.1.conf
    ∧ ∀ t ∈ (process_photo (p :: rest)).trees, t.conf ≤ p.1.conf := by
  constructor
  · simp [analyze_with_yolo, process_photo, instToTree]
  · intro t ht
    simp only [process_photo, List.map_cons, List.mem_cons, List.mem_map] at ht
    rcases ht with rfl | ⟨q, hq, rfl⟩
    · exact le_refl _
    · exact h q hq

/-- C7 witness: the amended statement evaluated on detections already in
non-increasing confidence order (0.9 then 0.5). -/
theorem C7_first_instance_witness :
    (analyze_with_yolo (process_photo
        [({ label := "oak", conf := 9/10 }, Except.ok []),
         ({ label := "pine", conf := 1/2 }, Except.ok [])])).tree_type_confidence = 9/10
    ∧ ∀ t ∈ (process_photo
        [({ label := "oak", conf := 9/10 }, Except.ok []),
         ({ label := "pine", conf := 1/2 }, Except.ok [])]).trees, t.conf ≤ 9/10 :=
  C7_first_instance ({ label := "oak", conf := 9/10 }, Except.ok [])
    [({ label := "pine", conf := 1/2 }, Except.ok [])]
    (by intro q hq; simp at hq; subst hq; norm_num)

/-- C8: a defect-model failure for one instance does not abort the task:
that instance's defect list degrades to the empty sequence, every instance
still yields a tree entry, and the run completes (commits `PROCESSING` then
`COMPLETED`, never `FAILED`). -/
theorem C8_defect_failure (env : Env)
    (dets : List (Instance × Except String (List String)))
    (inst : Instance) (e : String)
    (h1 : env.taskFound = true) (h2 : env.fileExists = true) (h3 : env.decodeOk = true)
    (h4 : env.segmentation = Except.ok dets) :
    (instToTree (inst, Except.error e)).defects = []
    ∧ (dispatch env).outcome = Outcome.completed
    ∧ (dispatch env).commits = [TaskStatus.processing, TaskStatus.completed]
    ∧ (process_photo dets).trees.length = dets.length := by
  refine ⟨rfl, ?_, ?_, ?_⟩ <;>
    simp [dispatch, h1, h2, h3, h4, process_photo]

/-- C8 witness: the statement evaluated on the environment whose single
instance's defect call raises. -/
theorem C8_defect_failure_witness :
    (instToTree ({ label := "oak", conf := 8/10 },
        (Except.error "defect model crashed" : Except String (List String)))).defects = []
    ∧ (dispatch envDefectError).outcome = Outcome.completed
    ∧ (dispatch envDefectError).commits = [TaskStatus.processing, TaskStatus.completed]
    ∧ (process_photo [({ label := "oak", conf := 8/10 },
        Except.error "defect model crashed")]).trees.length
      = [(({ label := "oak", conf := 8/10 } : Instance),
          (Except.error "defect model crashed" : Except String (List String)))].length :=
  C8_defect_failure envDefectError
    [({ label := "oak", conf := 8/10 }, Except.error "defect model crashed")]
    { label := "oak", conf := 8/10 } "defect model crashed" rfl rfl rfl rfl

/-- C9: the claim says the processed-image metadata (byte sizes and pixel
dimensions) is attached to the Task whether or not the subsequent analysis
succeeds. On the code this is false: when the analysis raises after
normalization has run, the handler overwrites `task_metadata` with the
error payload only, so the FAILED task carries no image metadata. -/
theorem C9_counterexample :
    envAnalysisFail.fileExists = true
    ∧ envAnalysisFail.decodeOk = true
    ∧ (dispatch envAnalysisFail).commits = [TaskStatus.processing, TaskStatus.failed]
    ∧ (dispatch envAnalysisFail).finalMeta
        = some (Meta.errorPayload "Segmentation failed: backend unavailable")
    ∧ hasImageMeta (dispatch envAnalysisFail) = false := by
  refine ⟨?_, ?_, ?_, ?_, ?_⟩ <;> decide

/-- C9 (amended): the processed-image metadata is attached only on the
success path, inside the single commit that also sets `COMPLETED`; on any
failure after normalization the committed `task_metadata` is the error
payload alone, without the size/dimension fields. -/
theorem C9_metadata (env : Env)
    (h1 : env.taskFound = true) (h2 : env.fileExists = true) (h3 : env.decodeOk = true) :
    (∀ dets, env.segmentation = Except.ok dets →
        (dispatch env).finalMeta = some (Meta.fullMeta env.origSize env.procSize
          env.origDims env.procDims (analyze_with_yolo (process_photo dets)))
        ∧ hasImageMeta (dispatch env) = true)
    ∧ (∀ e, env.segmentation = Except.error e →
        (dispatch env).finalMeta = some (Meta.errorPayload e)
        ∧ hasImageMeta (dispatch env) = false) := by
  constructor
  · intro dets h4
    refine ⟨?_, ?_⟩ <;> simp [dispatch, h1, h2, h3, h4, hasImageMeta]
  · intro e h4
    refine ⟨?_, ?_⟩ <;> simp [dispatch, h1, h2, h3, h4, hasImageMeta]

/-- C9 witness: the amended statement evaluated on the concrete successful
environment. -/
theorem C9_metadata_witness :
    (dispatch envOk).finalMeta = some (Meta.fullMeta 1000 500 (1600, 1200) (800, 600)
        (analyze_with_yolo (process_photo okDets)))
    ∧ hasImageMeta (dispatch envOk) = true :=
  (C9_metadata envOk rfl rfl rfl).1 okDets rfl

/-- C10: on the YOLO path, every committed Finding has the constant fields
type = "bark_damage", confidence = 0.8, severity = "medium" and the single
fixed recommendation string; the detected defect label appears only as the
description, which is one of the first tree's (translated) defect
strings. -/
theorem C10_constant_findings (y : YoloResult) (d : Damage)
    (hd : d ∈ (analyze_with_yolo y).damages_detected) :
    d.type = "bark_damage"
    ∧ d.confidence = 8/10
    ∧ d.severity = "medium"
    ∧ d.recommendations = ["Обратиться к специалисту"]
    ∧ ∃ t, y.trees.head? = some t ∧ d.description ∈ t.defects := by
  rcases y with ⟨trees⟩
  cases trees with
  | nil => simp [analyze_with_yolo] at hd
  | cons t rest =>
    simp only [analyze_with_yolo] at hd
    rw [List.mem_map] at hd
    rcases hd with ⟨defect, hdef, rfl⟩
    exact ⟨rfl, rfl, rfl, rfl, t, rfl, hdef⟩

/-- C10 witness: the statement evaluated on the one-defect result, whose
single Finding is `defectToDamage "трещина"`. -/
theorem C10_constant_findings_witness :
    (defectToDamage "трещина").type = "bark_damage"
    ∧ (defectToDamage "трещина").confidence = 8/10
    ∧ (defectToDamage "трещина").severity = "medium"
    ∧ (defectToDamage "трещина").recommendations = ["Обратиться к специалисту"]
    ∧ ∃ t, yoloOneDefect.trees.head? = some t
        ∧ (defectToDamage "трещина").description ∈ t.defects :=
  C10_constant_findings yoloOneDefect (defectToDamage "трещина")
    (by simp [analyze_with_yolo, yoloOneDefect])

end SADTree
